import Mathlib

/-!
Shallow embedding of the persistent-configuration subsystem of
`tikva` (file `tikva/core/config.py`), together with proofs of the
behavioural claims about it.

Modelling conventions:
* A Python `dict` passed through this subsystem is represented as an
  association list `Dict` in which a later entry shadows an earlier one
  with the same key (matching insertion-order/overwrite semantics of a
  Python dict comprehension); `dlookup` returns the visible binding.
* YAML scalar values are represented by the tagged type `Value`.
  Validation of a pydantic field accepts exactly the values of the
  annotated type; cross-type coercion is not modelled.
* A raised exception escaping a function is modelled by `Except.error`
  carrying the name of the offending field.
* The configuration file is modelled by `Option FileContent`:
  `Option.none` means the file does not exist; `FileContent` abstracts
  the result of `yaml.safe_load` on the file text.
-/

namespace Tikva

/-- A YAML/JSON-like scalar or list value as it appears in the
configuration dictionaries. -/
inductive Value where
  | bool (b : Bool)
  | int (n : Int)
  | str (s : String)
  | intList (l : List Int)
  | none
deriving Repr, DecidableEq

/-- A Python dict as an association list; later entries shadow earlier
ones with the same key. -/
abbrev Dict := List (String × Value)

/-- Lookup in a `Dict`: the last binding of a key wins, matching the
overwrite semantics of Python dict construction. -/
def dlookup : Dict → String → Option Value
  | [], _ => Option.none
  | p :: rest, k =>
    match dlookup rest k with
    | some v => some v
    | Option.none => if p.1 == k then some p.2 else Option.none

/-- Python's `s.startswith(pre)`, modelled at the character level. -/
def str_startswith (s pre : String) : Bool :=
  pre.data.isPrefixOf s.data

/-- Python's `s.upper()`, modelled at the character level (the keys
handled by this subsystem are ASCII identifiers). -/
def str_upper (s : String) : String :=
  String.mk (s.data.map Char.toUpper)

/-- `rename_keys_for_config` from `tikva/core/config.py`:
rename the keys to correspond to the fields of the `Configuration`
class, writing keys in uppercase with `DEFAULT_` prepended; a key that
already starts with `DEFAULT_` is kept as is. -/
def rename_keys_for_config (config_dict : Dict) : Dict :=
  config_dict.map (fun p =>
    (if str_startswith p.1 "DEFAULT_" then p.1
     else "DEFAULT_" ++ str_upper p.1, p.2))

/-- Modelled from the spec: the type `tikva.types.VideoCodecs` is not
under `src/`; the spec describes it only as an enumeration of supported
codec identifiers whose default member is `avc1`.  We model it as a
fixed list of identifier strings containing `avc1`. -/
def videoCodecs : List String := ["avc1", "mp4v", "hev1", "avc3", "hvc1"]

/-- The allowed values of the `DEFAULT_EPISODE_FORMAT` literal type. -/
def episodeFormats : List String := ["lerobot_v2.1", "lerobot_v2", "json"]

/-- The `Configuration` pydantic model of `tikva/core/config.py`:
every field with its declared default. -/
structure Configuration where
  ENABLE_REALSENSE : Bool := true
  ENABLE_CAMERAS : Bool := true
  MAX_OPENCV_INDEX : Int := 10
  MAIN_CAMERA_ID : Option Int := Option.none
  ENABLE_CAN : Bool := false
  MAX_CAN_INTERFACES : Int := 4
  DEFAULT_DATASET_NAME : String := "example_dataset"
  DEFAULT_FREQ : Int := 30
  DEFAULT_EPISODE_FORMAT : String := "lerobot_v2.1"
  DEFAULT_VIDEO_CODEC : String := "avc1"
  DEFAULT_VIDEO_SIZE : List Int := [320, 240]
  DEFAULT_TASK_INSTRUCTION : String := "None"
  DEFAULT_CAMERAS_TO_DISABLE : Option (List Int) := Option.none
  DEFAULT_CAMERAS_TO_RECORD : Option (List Int) := Option.none
deriving Repr, DecidableEq

/-- The all-defaults instance, `Configuration()` in the source. -/
def default_config : Configuration := {}

/-- Validation of a `bool`-annotated pydantic field: absent key gives
the default, a boolean value is taken, anything else is a validation
error naming the field. -/
def validateBool (d : Dict) (k : String) (dflt : Bool) : Except String Bool :=
  match dlookup d k with
  | Option.none => Except.ok dflt
  | some (Value.bool b) => Except.ok b
  | some _ => Except.error k

/-- Validation of an `int`-annotated pydantic field (no range
constraint is declared in the source). -/
def validateInt (d : Dict) (k : String) (dflt : Int) : Except String Int :=
  match dlookup d k with
  | Option.none => Except.ok dflt
  | some (Value.int n) => Except.ok n
  | some _ => Except.error k

/-- Validation of a `str`-annotated pydantic field. -/
def validateStr (d : Dict) (k : String) (dflt : String) : Except String String :=
  match dlookup d k with
  | Option.none => Except.ok dflt
  | some (Value.str s) => Except.ok s
  | some _ => Except.error k

/-- Validation of an `Optional[int]`-annotated pydantic field. -/
def validateOptInt (d : Dict) (k : String) (dflt : Option Int) :
    Except String (Option Int) :=
  match dlookup d k with
  | Option.none => Except.ok dflt
  | some Value.none => Except.ok Option.none
  | some (Value.int n) => Except.ok (some n)
  | some _ => Except.error k

/-- Validation of a `List[int]`-annotated pydantic field. -/
def validateIntList (d : Dict) (k : String) (dflt : List Int) :
    Except String (List Int) :=
  match dlookup d k with
  | Option.none => Except.ok dflt
  | some (Value.intList l) => Except.ok l
  | some _ => Except.error k

/-- Validation of an `Optional[List[int]]`-annotated pydantic field. -/
def validateOptIntList (d : Dict) (k : String) (dflt : Option (List Int)) :
    Except String (Option (List Int)) :=
  match dlookup d k with
  | Option.none => Except.ok dflt
  | some Value.none => Except.ok Option.none
  | some (Value.intList l) => Except.ok (some l)
  | some _ => Except.error k

/-- Validation of a string-literal-enumeration pydantic field: the
value must be a string belonging to the allowed set. -/
def validateEnum (d : Dict) (k : String) (allowed : List String)
    (dflt : String) : Except String String :=
  match dlookup d k with
  | Option.none => Except.ok dflt
  | some (Value.str s) =>
      if allowed.contains s then Except.ok s else Except.error k
  | some _ => Except.error k

/-- `Configuration.model_validate` (equivalently `Configuration(**d)`):
construct a fully validated instance from a mapping, field by field in
declaration order; unknown keys are ignored (`extra = "ignore"`), and
the first field whose present value fails its rule aborts the whole
construction with a validation error. -/
def model_validate (d : Dict) : Except String Configuration := do
  let enable_realsense ← validateBool d "ENABLE_REALSENSE" true
  let enable_cameras ← validateBool d "ENABLE_CAMERAS" true
  let max_opencv_index ← validateInt d "MAX_OPENCV_INDEX" 10
  let main_camera_id ← validateOptInt d "MAIN_CAMERA_ID" Option.none
  let enable_can ← validateBool d "ENABLE_CAN" false
  let max_can_interfaces ← validateInt d "MAX_CAN_INTERFACES" 4
  let dataset_name ← validateStr d "DEFAULT_DATASET_NAME" "example_dataset"
  let freq ← validateInt d "DEFAULT_FREQ" 30
  let episode_format ← validateEnum d "DEFAULT_EPISODE_FORMAT" episodeFormats "lerobot_v2.1"
  let video_codec ← validateEnum d "DEFAULT_VIDEO_CODEC" videoCodecs "avc1"
  let video_size ← validateIntList d "DEFAULT_VIDEO_SIZE" [320, 240]
  let task_instruction ← validateStr d "DEFAULT_TASK_INSTRUCTION" "None"
  let cameras_to_disable ← validateOptIntList d "DEFAULT_CAMERAS_TO_DISABLE" Option.none
  let cameras_to_record ← validateOptIntList d "DEFAULT_CAMERAS_TO_RECORD" Option.none
  pure {
    ENABLE_REALSENSE := enable_realsense
    ENABLE_CAMERAS := enable_cameras
    MAX_OPENCV_INDEX := max_opencv_index
    MAIN_CAMERA_ID := main_camera_id
    ENABLE_CAN := enable_can
    MAX_CAN_INTERFACES := max_can_interfaces
    DEFAULT_DATASET_NAME := dataset_name
    DEFAULT_FREQ := freq
    DEFAULT_EPISODE_FORMAT := episode_format
    DEFAULT_VIDEO_CODEC := video_codec
    DEFAULT_VIDEO_SIZE := video_size
    DEFAULT_TASK_INSTRUCTION := task_instruction
    DEFAULT_CAMERAS_TO_DISABLE := cameras_to_disable
    DEFAULT_CAMERAS_TO_RECORD := cameras_to_record }

/-- The possible states of the configuration file once it exists:
the empty file, text that fails YAML parsing, well-formed YAML whose
top level is not a mapping, or a top-level mapping. -/
inductive FileContent where
  | empty
  | malformed
  | yamlNonDict
  | yamlDict (d : Dict)
deriving Repr, DecidableEq

/-- `Configuration.from_yaml`: if the file does not exist, create it
empty and return the all-defaults instance.  Otherwise parse it: a
parse error is logged and treated as no content, a non-mapping result
is replaced by the empty mapping, and the (renamed) mapping is fed to
`Configuration(**config)` — whose validation error, if any, escapes
uncaught (modelled by `Except.error`).  Returns the result together
with the file state after the call. -/
def from_yaml (fs : Option FileContent) :
    Except String Configuration × Option FileContent :=
  match fs with
  | Option.none => (Except.ok default_config, some FileContent.empty)
  | some c =>
      let config : Dict :=
        match c with
        | FileContent.yamlDict d => d
        | _ => []
      (model_validate (rename_keys_for_config config), some c)

/-- `Configuration.save_user_settings`: rename the keys of the
proposed settings, validate them as a fresh instance; on any
validation failure log and return leaving everything unchanged; on
success dump the renamed dictionary to the file (overwriting it) and
copy every field of the new instance onto `self`.  The result is the
pair (singleton after the call, file after the call). -/
def save_user_settings (self : Configuration) (fs : Option FileContent)
    (user_settings : Dict) : Configuration × Option FileContent :=
  match model_validate (rename_keys_for_config user_settings) with
  | Except.error _ => (self, fs)
  | Except.ok new_config =>
      (new_config, some (FileContent.yamlDict (rename_keys_for_config user_settings)))

/-- The canonical field identifiers of the schema, in declaration
order. -/
def schemaFields : List String :=
  ["ENABLE_REALSENSE", "ENABLE_CAMERAS", "MAX_OPENCV_INDEX",
   "MAIN_CAMERA_ID", "ENABLE_CAN", "MAX_CAN_INTERFACES",
   "DEFAULT_DATASET_NAME", "DEFAULT_FREQ", "DEFAULT_EPISODE_FORMAT",
   "DEFAULT_VIDEO_CODEC", "DEFAULT_VIDEO_SIZE",
   "DEFAULT_TASK_INSTRUCTION", "DEFAULT_CAMERAS_TO_DISABLE",
   "DEFAULT_CAMERAS_TO_RECORD"]

/-- Injection of an optional int into `Value`, for comparing a field
against the mapping entry that set it. -/
def valueOfOptInt : Option Int → Value
  | Option.none => Value.none
  | some n => Value.int n

/-- Injection of an optional int list into `Value`. -/
def valueOfOptIntList : Option (List Int) → Value
  | Option.none => Value.none
  | some l => Value.intList l

/-- Read a schema field of an instance as a `Value`, by canonical field
identifier. -/
def getField (c : Configuration) : String → Value
  | "ENABLE_REALSENSE" => Value.bool c.ENABLE_REALSENSE
  | "ENABLE_CAMERAS" => Value.bool c.ENABLE_CAMERAS
  | "MAX_OPENCV_INDEX" => Value.int c.MAX_OPENCV_INDEX
  | "MAIN_CAMERA_ID" => valueOfOptInt c.MAIN_CAMERA_ID
  | "ENABLE_CAN" => Value.bool c.ENABLE_CAN
  | "MAX_CAN_INTERFACES" => Value.int c.MAX_CAN_INTERFACES
  | "DEFAULT_DATASET_NAME" => Value.str c.DEFAULT_DATASET_NAME
  | "DEFAULT_FREQ" => Value.int c.DEFAULT_FREQ
  | "DEFAULT_EPISODE_FORMAT" => Value.str c.DEFAULT_EPISODE_FORMAT
  | "DEFAULT_VIDEO_CODEC" => Value.str c.DEFAULT_VIDEO_CODEC
  | "DEFAULT_VIDEO_SIZE" => Value.intList c.DEFAULT_VIDEO_SIZE
  | "DEFAULT_TASK_INSTRUCTION" => Value.str c.DEFAULT_TASK_INSTRUCTION
  | "DEFAULT_CAMERAS_TO_DISABLE" => valueOfOptIntList c.DEFAULT_CAMERAS_TO_DISABLE
  | "DEFAULT_CAMERAS_TO_RECORD" => valueOfOptIntList c.DEFAULT_CAMERAS_TO_RECORD
  | _ => Value.none

/-- The restriction of a mapping to the recognized canonical field
identifiers. -/
def recognized (d : Dict) : Dict :=
  d.filter (fun p => schemaFields.contains p.1)

theorem except_bind_ok {α β : Type} (x : Except String α)
    (f : α → Except String β) (b : β) (h : x >>= f = Except.ok b) :
    ∃ a, x = Except.ok a ∧ f a = Except.ok b := by
  cases x with
  | error e => simp [Bind.bind, Except.bind] at h
  | ok a => exact ⟨a, rfl, by simpa [Bind.bind, Except.bind] using h⟩

theorem model_validate_ok_inv (d : Dict) (inst : Configuration)
    (h : model_validate d = Except.ok inst) :
    validateBool d "ENABLE_REALSENSE" true = Except.ok inst.ENABLE_REALSENSE ∧
    validateBool d "ENABLE_CAMERAS" true = Except.ok inst.ENABLE_CAMERAS ∧
    validateInt d "MAX_OPENCV_INDEX" 10 = Except.ok inst.MAX_OPENCV_INDEX ∧
    validateOptInt d "MAIN_CAMERA_ID" Option.none = Except.ok inst.MAIN_CAMERA_ID ∧
    validateBool d "ENABLE_CAN" false = Except.ok inst.ENABLE_CAN ∧
    validateInt d "MAX_CAN_INTERFACES" 4 = Except.ok inst.MAX_CAN_INTERFACES ∧
    validateStr d "DEFAULT_DATASET_NAME" "example_dataset" = Except.ok inst.DEFAULT_DATASET_NAME ∧
    validateInt d "DEFAULT_FREQ" 30 = Except.ok inst.DEFAULT_FREQ ∧
    validateEnum d "DEFAULT_EPISODE_FORMAT" episodeFormats "lerobot_v2.1" = Except.ok inst.DEFAULT_EPISODE_FORMAT ∧
    validateEnum d "DEFAULT_VIDEO_CODEC" videoCodecs "avc1" = Except.ok inst.DEFAULT_VIDEO_CODEC ∧
    validateIntList d "DEFAULT_VIDEO_SIZE" [320, 240] = Except.ok inst.DEFAULT_VIDEO_SIZE ∧
    validateStr d "DEFAULT_TASK_INSTRUCTION" "None" = Except.ok inst.DEFAULT_TASK_INSTRUCTION ∧
    validateOptIntList d "DEFAULT_CAMERAS_TO_DISABLE" Option.none = Except.ok inst.DEFAULT_CAMERAS_TO_DISABLE ∧
    validateOptIntList d "DEFAULT_CAMERAS_TO_RECORD" Option.none = Except.ok inst.DEFAULT_CAMERAS_TO_RECORD := by
  unfold model_validate at h
  obtain ⟨a1, h1, h⟩ := except_bind_ok _ _ _ h
  obtain ⟨a2, h2, h⟩ := except_bind_ok _ _ _ h
  obtain ⟨a3, h3, h⟩ := except_bind_ok _ _ _ h
  obtain ⟨a4, h4, h⟩ := except_bind_ok _ _ _ h
  obtain ⟨a5, h5, h⟩ := except_bind_ok _ _ _ h
  obtain ⟨a6, h6, h⟩ := except_bind_ok _ _ _ h
  obtain ⟨a7, h7, h⟩ := except_bind_ok _ _ _ h
  obtain ⟨a8, h8, h⟩ := except_bind_ok _ _ _ h
  obtain ⟨a9, h9, h⟩ := except_bind_ok _ _ _ h
  obtain ⟨a10, h10, h⟩ := except_bind_ok _ _ _ h
  obtain ⟨a11, h11, h⟩ := except_bind_ok _ _ _ h
  obtain ⟨a12, h12, h⟩ := except_bind_ok _ _ _ h
  obtain ⟨a13, h13, h⟩ := except_bind_ok _ _ _ h
  obtain ⟨a14, h14, h⟩ := except_bind_ok _ _ _ h
  simp only [pure, Except.pure, Except.ok.injEq] at h
  subst h
  exact ⟨h1, h2, h3, h4, h5, h6, h7, h8, h9, h10, h11, h12, h13, h14⟩

theorem validateBool_present {d : Dict} {k : String} {dflt : Bool}
    {v : Value} {b : Bool} (hv : dlookup d k = some v)
    (h : validateBool d k dflt = Except.ok b) : v = Value.bool b := by
  unfold validateBool at h
  rw [hv] at h
  cases v <;> simp_all

theorem validateBool_absent {d : Dict} {k : String} {dflt b : Bool}
    (hv : dlookup d k = Option.none)
    (h : validateBool d k dflt = Except.ok b) : b = dflt := by
  unfold validateBool at h
  rw [hv] at h
  simp_all

theorem validateInt_present {d : Dict} {k : String} {dflt : Int}
    {v : Value} {b : Int} (hv : dlookup d k = some v)
    (h : validateInt d k dflt = Except.ok b) : v = Value.int b := by
  unfold validateInt at h
  rw [hv] at h
  cases v <;> simp_all

theorem validateInt_absent {d : Dict} {k : String} {dflt b : Int}
    (hv : dlookup d k = Option.none)
    (h : validateInt d k dflt = Except.ok b) : b = dflt := by
  unfold validateInt at h
  rw [hv] at h
  simp_all

theorem validateStr_present {d : Dict} {k : String} {dflt : String}
    {v : Value} {b : String} (hv : dlookup d k = some v)
    (h : validateStr d k dflt = Except.ok b) : v = Value.str b := by
  unfold validateStr at h
  rw [hv] at h
  cases v <;> simp_all

theorem validateStr_absent {d : Dict} {k : String} {dflt b : String}
    (hv : dlookup d k = Option.none)
    (h : validateStr d k dflt = Except.ok b) : b = dflt := by
  unfold validateStr at h
  rw [hv] at h
  simp_all

theorem validateOptInt_present {d : Dict} {k : String} {dflt : Option Int}
    {v : Value} {b : Option Int} (hv : dlookup d k = some v)
    (h : validateOptInt d k dflt = Except.ok b) : v = valueOfOptInt b := by
  unfold validateOptInt at h
  rw [hv] at h
  cases v with
  | int n => simp at h; rw [← h]; rfl
  | none => simp at h; rw [← h]; rfl
  | bool c => simp_all
  | str s => simp_all
  | intList l => simp_all

theorem validateOptInt_absent {d : Dict} {k : String} {dflt b : Option Int}
    (hv : dlookup d k = Option.none)
    (h : validateOptInt d k dflt = Except.ok b) : b = dflt := by
  unfold validateOptInt at h
  rw [hv] at h
  simp_all

theorem validateIntList_present {d : Dict} {k : String} {dflt : List Int}
    {v : Value} {b : List Int} (hv : dlookup d k = some v)
    (h : validateIntList d k dflt = Except.ok b) : v = Value.intList b := by
  unfold validateIntList at h
  rw [hv] at h
  cases v <;> simp_all

theorem validateIntList_absent {d : Dict} {k : String} {dflt b : List Int}
    (hv : dlookup d k = Option.none)
    (h : validateIntList d k dflt = Except.ok b) : b = dflt := by
  unfold validateIntList at h
  rw [hv] at h
  simp_all

theorem validateOptIntList_present {d : Dict} {k : String}
    {dflt : Option (List Int)} {v : Value} {b : Option (List Int)}
    (hv : dlookup d k = some v)
    (h : validateOptIntList d k dflt = Except.ok b) : v = valueOfOptIntList b := by
  unfold validateOptIntList at h
  rw [hv] at h
  cases v with
  | intList l => simp at h; rw [← h]; rfl
  | none => simp at h; rw [← h]; rfl
  | bool c => simp_all
  | str s => simp_all
  | int n => simp_all

theorem validateOptIntList_absent {d : Dict} {k : String}
    {dflt b : Option (List Int)} (hv : dlookup d k = Option.none)
    (h : validateOptIntList d k dflt = Except.ok b) : b = dflt := by
  unfold validateOptIntList at h
  rw [hv] at h
  simp_all

theorem validateEnum_present {d : Dict} {k : String} {allowed : List String}
    {dflt : String} {v : Value} {b : String} (hv : dlookup d k = some v)
    (h : validateEnum d k allowed dflt = Except.ok b) : v = Value.str b := by
  unfold validateEnum at h
  rw [hv] at h
  cases v with
  | str s =>
      by_cases hc : s ∈ allowed
      · simp [hc] at h
        rw [h]
      · simp [hc] at h
  | bool b => simp_all
  | int n => simp_all
  | intList l => simp_all
  | none => simp_all

theorem validateEnum_absent {d : Dict} {k : String} {allowed : List String}
    {dflt b : String} (hv : dlookup d k = Option.none)
    (h : validateEnum d k allowed dflt = Except.ok b) : b = dflt := by
  unfold validateEnum at h
  rw [hv] at h
  simp_all

theorem str_startswith_default_append (s : String) :
    str_startswith ("DEFAULT_" ++ s) "DEFAULT_" = true := by
  simp [str_startswith]

theorem default_append_head (s : String) :
    ("DEFAULT_" ++ s).data.head? = some 'D' := rfl

theorem default_append_ne (s : String) {t : String}
    (ht : t.data.head? ≠ some 'D') : "DEFAULT_" ++ s ≠ t :=
  fun h => ht (h ▸ default_append_head s)

theorem dlookup_rename_none (t : String)
    (h1 : str_startswith t "DEFAULT_" = false)
    (h2 : t.data.head? ≠ some 'D') :
    ∀ d : Dict, dlookup (rename_keys_for_config d) t = Option.none := by
  intro d
  induction d with
  | nil => rfl
  | cons p rest ih =>
    have hkey : ((if str_startswith p.1 "DEFAULT_" then p.1
        else "DEFAULT_" ++ str_upper p.1) == t) = false := by
      by_cases hsw : str_startswith p.1 "DEFAULT_" = true
      · rw [if_pos hsw]
        cases hbe : (p.1 == t) with
        | false => rfl
        | true =>
            rw [eq_of_beq hbe] at hsw
            rw [h1] at hsw
            exact absurd hsw (by simp)
      · rw [if_neg hsw]
        exact beq_eq_false_iff_ne.mpr (default_append_ne _ h2)
    show (match dlookup (rename_keys_for_config rest) t with
          | some v => some v
          | Option.none =>
              if ((if str_startswith p.1 "DEFAULT_" then p.1
                   else "DEFAULT_" ++ str_upper p.1) == t)
              then some p.2 else Option.none) = Option.none
    rw [ih, hkey]
    rfl

theorem rename_idem (d : Dict) :
    rename_keys_for_config (rename_keys_for_config d) =
      rename_keys_for_config d := by
  unfold rename_keys_for_config
  rw [List.map_map]
  apply List.map_congr_left
  intro p _
  by_cases hsw : str_startswith p.1 "DEFAULT_" = true
  · simp [Function.comp, hsw]
  · simp [Function.comp, hsw, str_startswith_default_append]

theorem dlookup_recognized (k : String)
    (hk : schemaFields.contains k = true) :
    ∀ d : Dict, dlookup (recognized d) k = dlookup d k := by
  intro d
  induction d with
  | nil => rfl
  | cons p rest ih =>
    show dlookup (List.filter _ (p :: rest)) k = dlookup (p :: rest) k
    rw [List.filter_cons]
    by_cases hp : schemaFields.contains p.1 = true
    · rw [if_pos hp]
      show (match dlookup (recognized rest) k with
            | some v => some v
            | Option.none => if p.1 == k then some p.2 else Option.none) =
          dlookup (p :: rest) k
      rw [ih]
      rfl
    · have hne : (p.1 == k) = false := by
        cases hbe : (p.1 == k) with
        | false => rfl
        | true =>
            rw [eq_of_beq hbe] at hp
            exact absurd hk hp
      rw [if_neg hp]
      show dlookup (recognized rest) k = dlookup (p :: rest) k
      rw [ih]
      show dlookup rest k =
        (match dlookup rest k with
         | some v => some v
         | Option.none => if p.1 == k then some p.2 else Option.none)
      rw [hne]
      cases dlookup rest k with
      | some v => rfl
      | none => rfl

theorem validateBool_ext {d e : Dict} {k : String}
    (hd : dlookup d k = dlookup e k) (dflt : Bool) :
    validateBool d k dflt = validateBool e k dflt := by
  unfold validateBool
  rw [hd]

theorem validateInt_ext {d e : Dict} {k : String}
    (hd : dlookup d k = dlookup e k) (dflt : Int) :
    validateInt d k dflt = validateInt e k dflt := by
  unfold validateInt
  rw [hd]

theorem validateStr_ext {d e : Dict} {k : String}
    (hd : dlookup d k = dlookup e k) (dflt : String) :
    validateStr d k dflt = validateStr e k dflt := by
  unfold validateStr
  rw [hd]

theorem validateOptInt_ext {d e : Dict} {k : String}
    (hd : dlookup d k = dlookup e k) (dflt : Option Int) :
    validateOptInt d k dflt = validateOptInt e k dflt := by
  unfold validateOptInt
  rw [hd]

theorem validateIntList_ext {d e : Dict} {k : String}
    (hd : dlookup d k = dlookup e k) (dflt : List Int) :
    validateIntList d k dflt = validateIntList e k dflt := by
  unfold validateIntList
  rw [hd]

theorem validateOptIntList_ext {d e : Dict} {k : String}
    (hd : dlookup d k = dlookup e k) (dflt : Option (List Int)) :
    validateOptIntList d k dflt = validateOptIntList e k dflt := by
  unfold validateOptIntList
  rw [hd]

theorem validateEnum_ext {d e : Dict} {k : String}
    (hd : dlookup d k = dlookup e k) (allowed : List String)
    (dflt : String) :
    validateEnum d k allowed dflt = validateEnum e k allowed dflt := by
  unfold validateEnum
  rw [hd]

theorem loaded_nonrecording_default (d : Dict) (inst : Configuration)
    (h : model_validate (rename_keys_for_config d) = Except.ok inst) :
    inst.ENABLE_REALSENSE = true ∧ inst.ENABLE_CAMERAS = true ∧
    inst.MAX_OPENCV_INDEX = 10 ∧ inst.MAIN_CAMERA_ID = Option.none ∧
    inst.ENABLE_CAN = false ∧ inst.MAX_CAN_INTERFACES = 4 := by
  obtain ⟨e1, e2, e3, e4, e5, e6, _⟩ := model_validate_ok_inv _ inst h
  refine ⟨?_, ?_, ?_, ?_, ?_, ?_⟩
  · exact validateBool_absent (dlookup_rename_none _ (by decide) (by decide) d) e1
  · exact validateBool_absent (dlookup_rename_none _ (by decide) (by decide) d) e2
  · exact validateInt_absent (dlookup_rename_none _ (by decide) (by decide) d) e3
  · exact validateOptInt_absent (dlookup_rename_none _ (by decide) (by decide) d) e4
  · exact validateBool_absent (dlookup_rename_none _ (by decide) (by decide) d) e5
  · exact validateInt_absent (dlookup_rename_none _ (by decide) (by decide) d) e6

/-- C1: for every proposed mapping whose normalized form fails Schema
validation, save_user_settings leaves the on-disk configuration file
and the live instance unchanged and returns without raising. -/
theorem save_user_settings_invalid_noop (self : Configuration)
    (fs : Option FileContent) (m : Dict)
    (h : ∃ err, model_validate (rename_keys_for_config m) = Except.error err) :
    save_user_settings self fs m = (self, fs) := by
  obtain ⟨err, herr⟩ := h
  unfold save_user_settings
  rw [herr]

theorem save_user_settings_invalid_noop_witness :
    save_user_settings default_config Option.none
      [("episode_format", Value.str "xml")] = (default_config, Option.none) :=
  save_user_settings_invalid_noop default_config Option.none
    [("episode_format", Value.str "xml")] ⟨"DEFAULT_EPISODE_FORMAT", rfl⟩

/-- C2: for every proposed mapping that validates successfully, after
save_user_settings each schema field whose normalized key is present in
the mapping equals the supplied value, and each absent field equals the
schema default, regardless of the pre-call instance (replace, not
merge). -/
theorem save_user_settings_replace (self : Configuration)
    (fs : Option FileContent) (m : Dict) (inst : Configuration)
    (h : model_validate (rename_keys_for_config m) = Except.ok inst) :
    (save_user_settings self fs m).1 = inst ∧
    ∀ key ∈ schemaFields,
      (∀ v, dlookup (rename_keys_for_config m) key = some v →
        v = getField inst key) ∧
      (dlookup (rename_keys_for_config m) key = Option.none →
        getField inst key = getField default_config key) := by
  obtain ⟨e1, e2, e3, e4, e5, e6, e7, e8, e9, e10, e11, e12, e13, e14⟩ :=
    model_validate_ok_inv _ inst h
  refine ⟨?_, ?_⟩
  · unfold save_user_settings
    rw [h]
  · intro key hk
    simp only [schemaFields, List.mem_cons, List.not_mem_nil, or_false] at hk
    rcases hk with rfl | rfl | rfl | rfl | rfl | rfl | rfl | rfl | rfl | rfl | rfl | rfl | rfl | rfl
    · exact ⟨fun v hv => validateBool_present hv e1,
        fun hv => congrArg Value.bool (validateBool_absent hv e1)⟩
    · exact ⟨fun v hv => validateBool_present hv e2,
        fun hv => congrArg Value.bool (validateBool_absent hv e2)⟩
    · exact ⟨fun v hv => validateInt_present hv e3,
        fun hv => congrArg Value.int (validateInt_absent hv e3)⟩
    · exact ⟨fun v hv => validateOptInt_present hv e4,
        fun hv => congrArg valueOfOptInt (validateOptInt_absent hv e4)⟩
    · exact ⟨fun v hv => validateBool_present hv e5,
        fun hv => congrArg Value.bool (validateBool_absent hv e5)⟩
    · exact ⟨fun v hv => validateInt_present hv e6,
        fun hv => congrArg Value.int (validateInt_absent hv e6)⟩
    · exact ⟨fun v hv => validateStr_present hv e7,
        fun hv => congrArg Value.str (validateStr_absent hv e7)⟩
    · exact ⟨fun v hv => validateInt_present hv e8,
        fun hv => congrArg Value.int (validateInt_absent hv e8)⟩
    · exact ⟨fun v hv => validateEnum_present hv e9,
        fun hv => congrArg Value.str (validateEnum_absent hv e9)⟩
    · exact ⟨fun v hv => validateEnum_present hv e10,
        fun hv => congrArg Value.str (validateEnum_absent hv e10)⟩
    · exact ⟨fun v hv => validateIntList_present hv e11,
        fun hv => congrArg Value.intList (validateIntList_absent hv e11)⟩
    · exact ⟨fun v hv => validateStr_present hv e12,
        fun hv => congrArg Value.str (validateStr_absent hv e12)⟩
    · exact ⟨fun v hv => validateOptIntList_present hv e13,
        fun hv => congrArg valueOfOptIntList (validateOptIntList_absent hv e13)⟩
    · exact ⟨fun v hv => validateOptIntList_present hv e14,
        fun hv => congrArg valueOfOptIntList (validateOptIntList_absent hv e14)⟩

theorem save_user_settings_replace_witness :
    (save_user_settings default_config Option.none
      [("freq", Value.int 60)]).1 = ({ DEFAULT_FREQ := 60 } : Configuration) ∧
    ∀ key ∈ schemaFields,
      (∀ v, dlookup (rename_keys_for_config [("freq", Value.int 60)]) key = some v →
        v = getField { DEFAULT_FREQ := 60 } key) ∧
      (dlookup (rename_keys_for_config [("freq", Value.int 60)]) key = Option.none →
        getField { DEFAULT_FREQ := 60 } key = getField default_config key) :=
  save_user_settings_replace default_config Option.none [("freq", Value.int 60)]
    { DEFAULT_FREQ := 60 } rfl

/-- C3 counterexample: a file whose parsed mapping fails Schema
validation makes the Loader propagate the validation error past its
boundary instead of returning a default instance. -/
theorem from_yaml_raises_on_invalid_field :
    (from_yaml (some (FileContent.yamlDict [("freq", Value.str "sixty")]))).1 =
      Except.error "DEFAULT_FREQ" := rfl

/-- C3 (amended): the Loader returns the default instance on an absent
file, an empty file, a parse error, and non-mapping contents; but on a
parsed mapping it returns exactly the Schema construction result, so a
validation failure escapes uncaught. -/
theorem from_yaml_failure_behavior :
    (from_yaml Option.none).1 = Except.ok default_config ∧
    (from_yaml (some FileContent.empty)).1 = Except.ok default_config ∧
    (from_yaml (some FileContent.malformed)).1 = Except.ok default_config ∧
    (from_yaml (some FileContent.yamlNonDict)).1 = Except.ok default_config ∧
    ∀ d : Dict, (from_yaml (some (FileContent.yamlDict d))).1 =
      model_validate (rename_keys_for_config d) :=
  ⟨rfl, rfl, rfl, rfl, fun _ => rfl⟩

/-- C4 counterexample: on a successful save the file receives the
renamed (normalized) mapping, not the original bare-key mapping. -/
theorem save_user_settings_writes_renamed_cex :
    (save_user_settings default_config Option.none
      [("freq", Value.int 60)]).2 =
      some (FileContent.yamlDict [("DEFAULT_FREQ", Value.int 60)]) ∧
    (save_user_settings default_config Option.none
      [("freq", Value.int 60)]).2 ≠
      some (FileContent.yamlDict [("freq", Value.int 60)]) :=
  ⟨rfl, by decide⟩

/-- C4 (amended): for every proposed mapping that validates
successfully, save_user_settings writes the normalized
(post-renaming) mapping to the file, overwriting its previous
contents, and copies every field of the newly validated instance onto
the live instance. -/
theorem save_user_settings_success (self : Configuration)
    (fs : Option FileContent) (m : Dict) (inst : Configuration)
    (h : model_validate (rename_keys_for_config m) = Except.ok inst) :
    save_user_settings self fs m =
      (inst, some (FileContent.yamlDict (rename_keys_for_config m))) := by
  unfold save_user_settings
  rw [h]

theorem save_user_settings_success_witness :
    save_user_settings default_config Option.none
      [("dataset_name", Value.str "foo")] =
      ({ DEFAULT_DATASET_NAME := "foo" },
        some (FileContent.yamlDict [("DEFAULT_DATASET_NAME", Value.str "foo")])) :=
  save_user_settings_success default_config Option.none
    [("dataset_name", Value.str "foo")] { DEFAULT_DATASET_NAME := "foo" } rfl

/-- C5 counterexample: Schema construction succeeds on a non-positive
frequency; no positivity rule is declared on the field. -/
theorem freq_nonpositive_accepted_cex :
    model_validate [("DEFAULT_FREQ", Value.int (-5))] =
      Except.ok { DEFAULT_FREQ := -5 } := rfl

/-- C5 (amended): the frequency, probe-index and CAN-interface fields
are constrained only to be integers; Schema construction accepts every
integer value for them, including non-positive ones. -/
theorem int_fields_unconstrained (n : Int) :
    model_validate [("DEFAULT_FREQ", Value.int n)] =
      Except.ok { DEFAULT_FREQ := n } ∧
    model_validate [("MAX_OPENCV_INDEX", Value.int n)] =
      Except.ok { MAX_OPENCV_INDEX := n } ∧
    model_validate [("MAX_CAN_INTERFACES", Value.int n)] =
      Except.ok { MAX_CAN_INTERFACES := n } :=
  ⟨rfl, rfl, rfl⟩

/-- C6 counterexample: a key already carrying the prefix is left
entirely unchanged by the normalizer, not uppercased. -/
theorem rename_keys_prefixed_not_uppercased_cex :
    rename_keys_for_config [("DEFAULT_freq", Value.int 1)] =
      [("DEFAULT_freq", Value.int 1)] ∧
    rename_keys_for_config [("DEFAULT_freq", Value.int 1)] ≠
      [("DEFAULT_FREQ", Value.int 1)] :=
  ⟨rfl, by decide⟩

/-- C6 (amended): the normalizer maps each key without the prefix to
the uppercased key with the prefix prepended, and keeps each key that
already carries the prefix entirely unchanged. -/
theorem rename_keys_amended (d : Dict) (k : String) (v : Value)
    (h : (k, v) ∈ d) :
    (str_startswith k "DEFAULT_" = false →
      ("DEFAULT_" ++ str_upper k, v) ∈ rename_keys_for_config d) ∧
    (str_startswith k "DEFAULT_" = true →
      (k, v) ∈ rename_keys_for_config d) := by
  constructor
  · intro hsw
    exact List.mem_map.mpr ⟨(k, v), h, by simp [hsw]⟩
  · intro hsw
    exact List.mem_map.mpr ⟨(k, v), h, by simp [hsw]⟩

theorem rename_keys_amended_witness :
    (str_startswith "freq" "DEFAULT_" = false →
      ("DEFAULT_" ++ str_upper "freq", Value.int 2) ∈
        rename_keys_for_config [("freq", Value.int 2)]) ∧
    (str_startswith "freq" "DEFAULT_" = true →
      ("freq", Value.int 2) ∈ rename_keys_for_config [("freq", Value.int 2)]) :=
  rename_keys_amended [("freq", Value.int 2)] "freq" (Value.int 2)
    (List.mem_singleton.mpr rfl)

/-- C7: no key of a normalized mapping can equal the canonical
identifier of a field outside the recording-defaults group, and after
any load the camera and robot fields of the returned instance equal
their schema defaults. -/
theorem nonrecording_fields_never_set :
    (∀ d : Dict,
      dlookup (rename_keys_for_config d) "ENABLE_REALSENSE" = Option.none ∧
      dlookup (rename_keys_for_config d) "ENABLE_CAMERAS" = Option.none ∧
      dlookup (rename_keys_for_config d) "MAX_OPENCV_INDEX" = Option.none ∧
      dlookup (rename_keys_for_config d) "MAIN_CAMERA_ID" = Option.none ∧
      dlookup (rename_keys_for_config d) "ENABLE_CAN" = Option.none ∧
      dlookup (rename_keys_for_config d) "MAX_CAN_INTERFACES" = Option.none) ∧
    (∀ (fs : Option FileContent) (inst : Configuration),
      (from_yaml fs).1 = Except.ok inst →
      inst.ENABLE_REALSENSE = true ∧ inst.ENABLE_CAMERAS = true ∧
      inst.MAX_OPENCV_INDEX = 10 ∧ inst.MAIN_CAMERA_ID = Option.none ∧
      inst.ENABLE_CAN = false ∧ inst.MAX_CAN_INTERFACES = 4) := by
  constructor
  · intro d
    exact ⟨dlookup_rename_none _ (by decide) (by decide) d,
      dlookup_rename_none _ (by decide) (by decide) d,
      dlookup_rename_none _ (by decide) (by decide) d,
      dlookup_rename_none _ (by decide) (by decide) d,
      dlookup_rename_none _ (by decide) (by decide) d,
      dlookup_rename_none _ (by decide) (by decide) d⟩
  · intro fs inst h
    cases fs with
    | none =>
        simp only [from_yaml] at h
        injection h with h
        subst h
        exact ⟨rfl, rfl, rfl, rfl, rfl, rfl⟩
    | some c =>
        cases c with
        | empty => exact loaded_nonrecording_default [] inst h
        | malformed => exact loaded_nonrecording_default [] inst h
        | yamlNonDict => exact loaded_nonrecording_default [] inst h
        | yamlDict d => exact loaded_nonrecording_default d inst h

theorem nonrecording_fields_never_set_witness :
    dlookup (rename_keys_for_config [("enable_can", Value.bool true)])
      "ENABLE_CAN" = Option.none ∧
    default_config.ENABLE_CAN = false :=
  ⟨(nonrecording_fields_never_set.1 [("enable_can", Value.bool true)]).2.2.2.2.1,
    (nonrecording_fields_never_set.2
      (some (FileContent.yamlDict [("enable_can", Value.bool true)]))
      default_config rfl).2.2.2.2.1⟩

/-- C8: Schema construction ignores keys matching no canonical field;
it succeeds or fails exactly as on the restriction of the mapping to
the recognized keys, with the same result. -/
theorem model_validate_ignores_unknown_keys (d : Dict) :
    model_validate d = model_validate (recognized d) := by
  unfold model_validate
  rw [validateBool_ext (dlookup_recognized "ENABLE_REALSENSE" (by decide) d).symm true]
  rw [validateBool_ext (dlookup_recognized "ENABLE_CAMERAS" (by decide) d).symm true]
  rw [validateInt_ext (dlookup_recognized "MAX_OPENCV_INDEX" (by decide) d).symm 10]
  rw [validateOptInt_ext (dlookup_recognized "MAIN_CAMERA_ID" (by decide) d).symm Option.none]
  rw [validateBool_ext (dlookup_recognized "ENABLE_CAN" (by decide) d).symm false]
  rw [validateInt_ext (dlookup_recognized "MAX_CAN_INTERFACES" (by decide) d).symm 4]
  rw [validateStr_ext (dlookup_recognized "DEFAULT_DATASET_NAME" (by decide) d).symm "example_dataset"]
  rw [validateInt_ext (dlookup_recognized "DEFAULT_FREQ" (by decide) d).symm 30]
  rw [validateEnum_ext (dlookup_recognized "DEFAULT_EPISODE_FORMAT" (by decide) d).symm episodeFormats "lerobot_v2.1"]
  rw [validateEnum_ext (dlookup_recognized "DEFAULT_VIDEO_CODEC" (by decide) d).symm videoCodecs "avc1"]
  rw [validateIntList_ext (dlookup_recognized "DEFAULT_VIDEO_SIZE" (by decide) d).symm [320, 240]]
  rw [validateStr_ext (dlookup_recognized "DEFAULT_TASK_INSTRUCTION" (by decide) d).symm "None"]
  rw [validateOptIntList_ext (dlookup_recognized "DEFAULT_CAMERAS_TO_DISABLE" (by decide) d).symm Option.none]
  rw [validateOptIntList_ext (dlookup_recognized "DEFAULT_CAMERAS_TO_RECORD" (by decide) d).symm Option.none]

/-- C9: when no configuration file exists, from_yaml creates an empty
file and returns the all-defaults instance, whose frequency is 30 and
whose episode export format is lerobot_v2.1. -/
theorem from_yaml_absent_creates_empty_defaults :
    from_yaml Option.none = (Except.ok default_config, some FileContent.empty) ∧
    default_config.DEFAULT_FREQ = 30 ∧
    default_config.DEFAULT_EPISODE_FORMAT = "lerobot_v2.1" :=
  ⟨rfl, rfl, rfl⟩

/-- C10: loading the file written by a successful save yields exactly
the instance that the save copied onto the live configuration, and the
key normalizer is idempotent. -/
theorem save_load_roundtrip (self : Configuration) (fs : Option FileContent)
    (m : Dict) (inst : Configuration)
    (h : model_validate (rename_keys_for_config m) = Except.ok inst) :
    (from_yaml (save_user_settings self fs m).2).1 =
      Except.ok ((save_user_settings self fs m).1) ∧
    rename_keys_for_config (rename_keys_for_config m) =
      rename_keys_for_config m := by
  refine ⟨?_, rename_idem m⟩
  have hs : save_user_settings self fs m =
      (inst, some (FileContent.yamlDict (rename_keys_for_config m))) := by
    unfold save_user_settings
    rw [h]
  rw [hs]
  show model_validate (rename_keys_for_config (rename_keys_for_config m)) =
    Except.ok inst
  rw [rename_idem m]
  exact h

theorem save_load_roundtrip_witness :
    (from_yaml (save_user_settings default_config Option.none
        [("freq", Value.int 50)]).2).1 =
      Except.ok ((save_user_settings default_config Option.none
        [("freq", Value.int 50)]).1) ∧
    rename_keys_for_config (rename_keys_for_config [("freq", Value.int 50)]) =
      rename_keys_for_config [("freq", Value.int 50)] :=
  save_load_roundtrip default_config Option.none [("freq", Value.int 50)]
    { DEFAULT_FREQ := 50 } rfl

end Tikva
